import Mathlib

/-!
# gorm-plus `gplus/base_dao.go`: condition finalisation, pagination, primary-key lookup

A shallow embedding of `src/gplus/base_dao.go`.

* A gorm handle (`*gorm.DB`) is the record `DB`: the clauses the chain methods
  (`Where`, `Order`, `Limit`, ...) have been handed so far, plus the result
  fields `Error` and `RowsAffected`.  Handles are non-nil throughout.
* The finisher methods of a handle (`Count`, `Find`, `Scan`, `Delete`,
  `Updates`, `CreateInBatches`) are the boundary to the relational driver: each
  of them is one `Call`, answered by an abstract `Driver` and appended to the
  trace of the `World`.
* `*Query[T]` is mutable and may be nil: functions that write to it return the
  new value of the builder next to their result, and a nil pointer is `none`.
  `Query` is declared in `query.go`; the record below has exactly the fields
  `base_dao.go` reads and writes.
* Go's `int` is 64 bits wide; arithmetic wraps (`wrapInt`).
-/

namespace Gplus

/-- A bound argument (Go `any`). -/
inductive Value where
  | int (i : Int)
  | str (s : String)
  deriving DecidableEq, Repr

/-- Fields of `Query[T]` used by `base_dao.go`; a `strings.Builder` is its content. -/
structure Query where
  DistinctColumns : List String := []
  SelectColumns : List String := []
  QueryBuilder : String := ""
  QueryArgs : List Value := []
  AndBracketBuilder : String := ""
  AndBracketArgs : List Value := []
  OrBracketBuilder : String := ""
  OrBracketArgs : List Value := []
  OrderBuilder : String := ""
  GroupBuilder : String := ""
  HavingBuilder : String := ""
  HavingArgs : List Value := []
  UpdateMap : List (String × Value) := []
  deriving DecidableEq, Repr

/-- A gorm handle: the statement built so far and the result fields. -/
structure DB where
  ctx : Option String := none
  hasModel : Bool := false
  distinct : List (List String) := []
  selects : List (List String) := []
  wheres : List (String × List Value) := []
  orders : List String := []
  groups : List String := []
  havings : List (String × List Value) := []
  offset : Option Int := none
  limit : Option Int := none
  Error : Option String := none
  RowsAffected : Int := 0
  deriving DecidableEq, Repr

/-- Chain method `db.Model(new(T))`. -/
def DB.Model (db : DB) : DB := { db with hasModel := true }

/-- Chain method `db.Distinct(cols)`. -/
def DB.Distinct (db : DB) (cols : List String) : DB :=
  { db with distinct := db.distinct ++ [cols] }

/-- Chain method `db.Select(cols)`. -/
def DB.Select (db : DB) (cols : List String) : DB :=
  { db with selects := db.selects ++ [cols] }

/-- Chain method `db.Where(text, args...)`. -/
def DB.Where (db : DB) (text : String) (args : List Value) : DB :=
  { db with wheres := db.wheres ++ [(text, args)] }

/-- Chain method `db.Order(text)`. -/
def DB.Order (db : DB) (text : String) : DB :=
  { db with orders := db.orders ++ [text] }

/-- Chain method `db.Group(text)`. -/
def DB.Group (db : DB) (text : String) : DB :=
  { db with groups := db.groups ++ [text] }

/-- Chain method `db.Having(text, args...)`. -/
def DB.Having (db : DB) (text : String) (args : List Value) : DB :=
  { db with havings := db.havings ++ [(text, args)] }

/-- Chain method `db.Offset(n)`. -/
def DB.Offset (db : DB) (n : Int) : DB := { db with offset := some n }

/-- Chain method `db.Limit(n)`. -/
def DB.Limit (db : DB) (n : Int) : DB := { db with limit := some n }

/-- Chain method `db.WithContext(ctx)`. -/
def DB.WithContext (db : DB) (c : String) : DB := { db with ctx := some c }

/-- The merge step of `buildCondition` (lines 206-219): runs only when the main
predicate text is non-empty; each bracket group is appended, arguments first and
then text, only when its own text is non-empty.  Returns the handle and the
builder as the step leaves them. -/
def mergeWhere (resultDb : DB) (q : Query) : DB × Query :=
  if q.QueryBuilder.length > 0 then
    let q1 :=
      if q.AndBracketBuilder.length > 0 then
        { q with QueryArgs := q.QueryArgs ++ q.AndBracketArgs,
                 QueryBuilder := q.QueryBuilder ++ q.AndBracketBuilder }
      else q
    let q2 :=
      if q1.OrBracketBuilder.length > 0 then
        { q1 with QueryArgs := q1.QueryArgs ++ q1.OrBracketArgs,
                  QueryBuilder := q1.QueryBuilder ++ q1.OrBracketBuilder }
      else q1
    (resultDb.Where q2.QueryBuilder q2.QueryArgs, q2)
  else (resultDb, q)

/-- Source `buildCondition` (lines 195-234).  The second component is the
builder after the call: the merge writes into `q.QueryBuilder` and
`q.QueryArgs`. -/
def buildCondition (db : DB) (q : Option Query) : DB × Option Query :=
  let resultDb := db.Model
  match q with
  | none => (resultDb, none)
  | some q =>
    let r1 := if q.DistinctColumns.length > 0 then resultDb.Distinct q.DistinctColumns else resultDb
    let r2 := if q.SelectColumns.length > 0 then r1.Select q.SelectColumns else r1
    let (r3, q3) := mergeWhere r2 q
    let r4 := if q3.OrderBuilder.length > 0 then r3.Order q3.OrderBuilder else r3
    let r5 := if q3.GroupBuilder.length > 0 then r4.Group q3.GroupBuilder else r4
    let r6 := if q3.HavingBuilder.length > 0 then r5.Having q3.HavingBuilder q3.HavingArgs else r5
    (r6, some q3)

/-- Number of `?` placeholders in a fragment. -/
def placeholders (s : String) : Nat := s.toList.count '?'

/-- Finisher methods of a gorm handle: the calls that reach the relational driver. -/
inductive Op (Row : Type) where
  | Count
  | Find
  | Scan
  | Delete
  | Updates (m : List (String × Value))
  | CreateInBatches (entities : List Row) (batchSize : Int)
  deriving DecidableEq, Repr

/-- One call that reaches the driver: the finisher and the statement it runs. -/
structure Call (Row : Type) where
  op : Op Row
  stmt : DB
  deriving DecidableEq, Repr

/-- What the driver answers to one call. -/
structure Outcome (Row : Type) where
  rows : List Row := []
  count : Int := 0
  rowsAffected : Int := 0
  err : Option String := none

/-- The relational driver, with its own store `σ`. -/
structure Driver (σ Row : Type) where
  exec : σ → Call Row → σ × Outcome Row

/-- The driver's store and the calls issued so far, oldest first. -/
structure World (σ Row : Type) where
  store : σ
  trace : List (Call Row) := []

/-- Run one finisher on a handle: the call is issued, and the handle carries
the error and rows-affected of the answer. -/
def run {σ Row : Type} (drv : Driver σ Row) (w : World σ Row) (op : Op Row) (db : DB) :
    Outcome Row × DB × World σ Row :=
  let c : Call Row := { op := op, stmt := db }
  let r := drv.exec w.store c
  (r.2, { db with Error := r.2.err, RowsAffected := r.2.rowsAffected },
    { store := r.1, trace := w.trace ++ [c] })

/-- Package variables `gormDb` and `defaultBatchSize` (lines 29-30). -/
structure Globals where
  gormDb : DB
  defaultBatchSize : Int := 1000

/-- Source `Init` (lines 32-34). -/
def Init (g : Globals) (db : DB) : Globals := { g with gormDb := db }

/-- Source `BaseDao[T]` (lines 36-38). -/
structure BaseDao where
  db : DB
  deriving DecidableEq, Repr

/-- Source `NewBaseDao` (lines 40-44). -/
def NewBaseDao (g : Globals) : BaseDao := { db := g.gormDb }

/-- Source `Page[T]` (lines 46-51). -/
structure Page (T : Type) where
  Current : Int
  Size : Int
  Total : Int := 0
  Records : List T := []

/-- Source `NewPage` (lines 53-55). -/
def NewPage {T : Type} (current size : Int) : Page T := { Current := current, Size := size }

/-- Source `BaseDao.WithCtx` (lines 61-63). -/
def BaseDao.WithCtx (d : BaseDao) (c : String) : BaseDao := { db := d.db.WithContext c }

/-- Source `BaseDao.InsertBatch` (lines 69-74). -/
def BaseDao.InsertBatch {σ Row : Type} (g : Globals) (drv : Driver σ Row) (d : BaseDao)
    (entities : List Row) (w : World σ Row) : DB × World σ Row :=
  if entities.length = 0 then (g.gormDb, w)
  else
    let r := run drv w (.CreateInBatches entities g.defaultBatchSize) d.db
    (r.2.1, r.2.2)

/-- Source `BaseDao.InsertBatchSize` (lines 76-84). -/
def BaseDao.InsertBatchSize {σ Row : Type} (g : Globals) (drv : Driver σ Row) (d : BaseDao)
    (entities : List Row) (batchSize : Int) (w : World σ Row) : DB × World σ Row :=
  if entities.length = 0 then (g.gormDb, w)
  else
    let batchSize := if batchSize ≤ 0 then g.defaultBatchSize else batchSize
    let r := run drv w (.CreateInBatches entities batchSize) d.db
    (r.2.1, r.2.2)

/-- Source `BaseDao.Delete` (lines 97-100). -/
def BaseDao.Delete {σ Row : Type} (drv : Driver σ Row) (d : BaseDao) (q : Query)
    (w : World σ Row) : DB × World σ Row :=
  let r := run drv w .Delete (d.db.Where q.QueryBuilder q.QueryArgs)
  (r.2.1, r.2.2)

/-- Source `BaseDao.Update` (lines 106-110). -/
def BaseDao.Update {σ Row : Type} (drv : Driver σ Row) (d : BaseDao) (q : Query)
    (w : World σ Row) : DB × World σ Row :=
  let r := run drv w (.Updates q.UpdateMap) (d.db.Model.Where q.QueryBuilder q.QueryArgs)
  (r.2.1, r.2.2)

/-- Result of `SelectCount`: the count, the handle, the builder and the world after. -/
structure CountResult (σ Row : Type) where
  count : Int
  db : DB
  q : Option Query
  world : World σ Row

/-- Source `BaseDao.SelectCount` (lines 152-157). -/
def BaseDao.SelectCount {σ Row : Type} (drv : Driver σ Row) (d : BaseDao) (q : Option Query)
    (w : World σ Row) : CountResult σ Row :=
  let b := buildCondition d.db q
  let r := run drv w .Count b.1
  { count := r.1.count, db := r.2.1, q := b.2, world := r.2.2 }

/-- Two's-complement wrap of an integer into Go's 64-bit `int`. -/
def wrapInt (x : Int) : Int := (x + 2 ^ 63) % 2 ^ 64 - 2 ^ 63

/-- Values of Go's `int`. -/
def isGoInt (x : Int) : Prop := -(2 ^ 63) ≤ x ∧ x < 2 ^ 63

/-- Source `paginate` (lines 180-193): the scope applied to the data query. -/
def paginate {T : Type} (p : Page T) : DB → DB :=
  let page := p.Current
  let pageSize := p.Size
  fun db =>
    let page := if page ≤ 0 then 1 else page
    let pageSize := if pageSize ≤ 0 then 10 else pageSize
    let offset := wrapInt (wrapInt (page - 1) * pageSize)
    (db.Offset offset).Limit pageSize

/-- Result of `SelectPage` and `SelectPageModel`. -/
structure PageResult (σ Row : Type) where
  page : Page Row
  db : DB
  q : Option Query
  world : World σ Row

/-- Source `BaseDao.SelectPage` (lines 139-150). -/
def BaseDao.SelectPage {σ Row : Type} (drv : Driver σ Row) (d : BaseDao) (page : Page Row)
    (q : Option Query) (w : World σ Row) : PageResult σ Row :=
  let c := d.SelectCount drv q w
  if c.db.Error ≠ none then
    { page := page, db := c.db, q := c.q, world := c.world }
  else
    let page := { page with Total := c.count }
    let b := buildCondition d.db c.q
    let r := run drv c.world .Find (paginate page b.1)
    let page := { page with Records := r.1.rows }
    { page := page, db := r.2.1, q := b.2, world := r.2.2 }

/-- Source `SelectPageModel` (lines 166-178). -/
def SelectPageModel {σ R : Type} (drv : Driver σ R) (db : DB) (page : Page R)
    (q : Option Query) (w : World σ R) : PageResult σ R :=
  let b0 := buildCondition db q
  let c := run drv w .Count b0.1
  if c.2.1.Error ≠ none then
    { page := page, db := c.2.1, q := b0.2, world := c.2.2 }
  else
    let page := { page with Total := c.1.count }
    let b := buildCondition db b0.2
    let r := run drv c.2.2 .Scan (paginate page b.1)
    let page := { page with Records := r.1.rows }
    { page := page, db := r.2.1, q := b.2, world := r.2.2 }

/-- A struct field as `reflect` shows it to `getPkColumnName`: its name and the
map `schema.ParseTagSetting(field.Tag.Get("gorm"), ";")` as a list of entries. -/
structure StructField where
  Name : String
  tagSetting : List (String × String) := []
  deriving DecidableEq, Repr

/-- What `getPkColumnName` takes from outside the file: `utils.CheckTruth`,
`schema.NamingStrategy{}.ColumnName` and `constants.DefaultPrimaryName`. -/
structure SchemaLib where
  CheckTruth : List String → Bool
  ColumnName : String → String → String
  DefaultPrimaryName : String

/-- Go map index `m[k]`: the zero value when the key is absent. -/
def mapIndex (m : List (String × String)) (k : String) : String := (m.lookup k).getD ""

/-- The loop of `getPkColumnName` (lines 240-254): the value of `columnName`
when the loop ends. -/
def pkLoop (lib : SchemaLib) : List StructField → String
  | [] => ""
  | field :: rest =>
    let tagSetting := field.tagSetting
    let isPrimaryKey :=
      lib.CheckTruth [mapIndex tagSetting "PRIMARYKEY", mapIndex tagSetting "PRIMARY_KEY"]
    if isPrimaryKey then
      match tagSetting.lookup "COLUMN" with
      | some name => name
      | none => lib.ColumnName "" field.Name
    else pkLoop lib rest

/-- Source `getPkColumnName` (lines 236-259), on the fields of `T` in declaration order. -/
def getPkColumnName (lib : SchemaLib) (fields : List StructField) : String :=
  let columnName := pkLoop lib fields
  if columnName = "" then lib.DefaultPrimaryName else columnName

/-! ## Definitions used to state the properties -/

/-- The builder after the merge step: bracket groups with non-empty text appended. -/
def merged (q : Query) : Query :=
  let q1 :=
    if q.AndBracketBuilder.length > 0 then
      { q with QueryArgs := q.QueryArgs ++ q.AndBracketArgs,
               QueryBuilder := q.QueryBuilder ++ q.AndBracketBuilder }
    else q
  if q1.OrBracketBuilder.length > 0 then
    { q1 with QueryArgs := q1.QueryArgs ++ q1.OrBracketArgs,
              QueryBuilder := q1.QueryBuilder ++ q1.OrBracketBuilder }
  else q1

/-- The field is marked as primary key: `CheckTruth` of its PRIMARYKEY and
PRIMARY_KEY settings. -/
def markedPrimary (lib : SchemaLib) (f : StructField) : Bool :=
  lib.CheckTruth [mapIndex f.tagSetting "PRIMARYKEY", mapIndex f.tagSetting "PRIMARY_KEY"]

/-- The column name of a field: the explicit COLUMN setting if the key is
present, otherwise the naming-convention transform of the field name. -/
def columnOf (lib : SchemaLib) (f : StructField) : String :=
  match f.tagSetting.lookup "COLUMN" with
  | some name => name
  | none => lib.ColumnName "" f.Name

/-- The page size `paginate` works with: 10 for a size that is not positive. -/
def normSize {T : Type} (p : Page T) : Int := if p.Size ≤ 0 then 10 else p.Size

/-- The page number `paginate` works with: 1 for a number that is not positive. -/
def normCurrent {T : Type} (p : Page T) : Int := if p.Current ≤ 0 then 1 else p.Current

/-! ## Concrete inputs -/

/-- A builder with one main predicate and one AND-bracket group. -/
def qBracket : Query :=
  { QueryBuilder := "name = ?", QueryArgs := [.str "a"],
    AndBracketBuilder := " AND (age > ?)", AndBracketArgs := [.int 18] }

/-- A builder whose AND-bracket group has an argument but no text. -/
def qArgsOnly : Query :=
  { QueryBuilder := "a = ?", QueryArgs := [.int 1], AndBracketArgs := [.int 2] }

/-- A builder with main predicate, AND-bracket and OR-bracket groups. -/
def qBoth : Query :=
  { QueryBuilder := "a = ?", QueryArgs := [.int 1],
    AndBracketBuilder := " AND (b = ?)", AndBracketArgs := [.int 2],
    OrBracketBuilder := " OR (c = ? AND d = ?)", OrBracketArgs := [.int 3, .int 4] }

/-- A builder made of bracket groups only: its main predicate text is empty. -/
def qBracketsOnly : Query :=
  { AndBracketBuilder := " AND (b = ?)", AndBracketArgs := [.int 2],
    OrBracketBuilder := " OR (c = ?)", OrBracketArgs := [.int 3] }

/-- A driver that answers every call without error: three rows counted or found. -/
def okDriver : Driver Unit Nat :=
  { exec := fun s c =>
      (s, match c.op with
          | .Count => { count := 3 }
          | _ => { rows := [7, 8, 9], rowsAffected := 3 }) }

/-- A driver whose count query fails. -/
def failingCountDriver : Driver Unit Nat :=
  { exec := fun s c =>
      (s, match c.op with
          | .Count => { err := some "count failed" }
          | _ => { rows := [7, 8, 9], rowsAffected := 3 }) }

/-- A page descriptor whose offset product does not fit 64 bits. -/
def pageHuge : Page Nat := { Current := 4294967297, Size := 2147483648 }

/-- A handle that has already run a statement: three rows affected. -/
def usedHandle : DB := { hasModel := true, RowsAffected := 3 }

/-- Package state after `Init(usedHandle)`. -/
def usedGlobals : Globals := Init { gormDb := {} } usedHandle

/-- Stand-in for the gorm library in concrete evaluations: `CheckTruth` holds
when some value is non-empty and is not the word false; the naming strategy is
stood in for by lower-casing; the default primary-key name is `id`. -/
def gormLib : SchemaLib :=
  { CheckTruth := fun vals =>
      vals.any (fun v => v != "" && v.data.map Char.toLower != ['f', 'a', 'l', 's', 'e']),
    ColumnName := fun _ name => String.mk (name.data.map Char.toLower),
    DefaultPrimaryName := "id" }

/-- Fields of a record whose first field is tagged `gorm:"primaryKey;column:"`:
the key COLUMN is present with the empty value. -/
def fieldsEmptyColumn : List StructField :=
  [{ Name := "Uid", tagSetting := [("PRIMARYKEY", "PRIMARYKEY"), ("COLUMN", "")] },
   { Name := "Name", tagSetting := [("TYPE", "text not null")] }]

/-! ## Finalisation: helper lemmas -/

theorem mergeWhere_of_pos (r : DB) (q : Query) (h : q.QueryBuilder.length > 0) :
    mergeWhere r q = (r.Where (merged q).QueryBuilder (merged q).QueryArgs, merged q) := by
  simp only [mergeWhere, merged, h, if_true]

theorem mergeWhere_of_empty (r : DB) (q : Query) (h : q.QueryBuilder.length = 0) :
    mergeWhere r q = (r, q) := by
  simp [mergeWhere, h]

theorem buildCondition_wheres_of_pos (db : DB) (q : Query) (h : q.QueryBuilder.length > 0) :
    (buildCondition db (some q)).1.wheres
      = db.wheres ++ [((merged q).QueryBuilder, (merged q).QueryArgs)] := by
  simp only [buildCondition, mergeWhere_of_pos _ _ h]
  split_ifs <;> simp [DB.Model, DB.Distinct, DB.Select, DB.Where, DB.Order, DB.Group, DB.Having]

theorem buildCondition_builder_of_pos (db : DB) (q : Query) (h : q.QueryBuilder.length > 0) :
    (buildCondition db (some q)).2 = some (merged q) := by
  simp only [buildCondition, mergeWhere_of_pos _ _ h]

theorem string_eq_empty_of_length (s : String) (h : ¬ s.length > 0) : s = "" := by
  have h0 : s.data.length = 0 := by
    have : s.length = s.data.length := rfl
    omega
  apply String.ext
  exact List.eq_nil_of_length_eq_zero h0

theorem merged_text (q : Query) :
    (merged q).QueryBuilder = q.QueryBuilder ++ q.AndBracketBuilder ++ q.OrBracketBuilder := by
  unfold merged
  by_cases ha : q.AndBracketBuilder.length > 0 <;> by_cases ho : q.OrBracketBuilder.length > 0
  · simp [ha, ho]
  · simp [ha, ho, string_eq_empty_of_length _ ho]
  · simp [ha, ho, string_eq_empty_of_length _ ha]
  · simp [ha, ho, string_eq_empty_of_length _ ha, string_eq_empty_of_length _ ho]

theorem merged_args (q : Query) :
    (merged q).QueryArgs = q.QueryArgs
      ++ (if q.AndBracketBuilder.length > 0 then q.AndBracketArgs else [])
      ++ (if q.OrBracketBuilder.length > 0 then q.OrBracketArgs else []) := by
  unfold merged
  by_cases ha : q.AndBracketBuilder.length > 0 <;> by_cases ho : q.OrBracketBuilder.length > 0 <;>
    simp [ha, ho]

theorem placeholders_append (s t : String) :
    placeholders (s ++ t) = placeholders s + placeholders t := by
  simp [placeholders, String.toList, String.data_append, List.count_append]

/-! ## Pagination and primary key: helper lemmas -/

theorem wrapInt_of_fits (x : Int) (h0 : -(2 ^ 63) ≤ x) (h1 : x < 2 ^ 63) : wrapInt x = x := by
  unfold wrapInt
  rw [Int.emod_eq_of_lt (by omega) (by omega)]
  omega

theorem normCurrent_pos {T : Type} (p : Page T) : 1 ≤ normCurrent p := by
  unfold normCurrent
  split_ifs <;> omega

theorem normSize_pos {T : Type} (p : Page T) : 1 ≤ normSize p := by
  unfold normSize
  split_ifs <;> omega

theorem paginate_eq {T : Type} (p : Page T) (db : DB) :
    paginate p db
      = (db.Offset (wrapInt (wrapInt (normCurrent p - 1) * normSize p))).Limit (normSize p) := rfl

theorem pkLoop_eq_find (lib : SchemaLib) (fields : List StructField) :
    pkLoop lib fields
      = match fields.find? (markedPrimary lib) with
        | none => ""
        | some f => columnOf lib f := by
  induction fields with
  | nil => rfl
  | cons f rest ih =>
    by_cases hm : markedPrimary lib f = true
    · have hm1 := hm
      unfold markedPrimary at hm1
      simp only [pkLoop, hm1, if_true, List.find?_cons, hm, columnOf]
    · have hm1 := hm
      unfold markedPrimary at hm1
      have hm2 : markedPrimary lib f = false := by simpa using hm
      simp only [pkLoop, hm1, List.find?_cons, hm2]
      simpa using ih

/-! ## Claims -/

/-- C1 (evaluation at the failing input): on a builder with a non-empty
AND-bracket group the second `buildCondition` call does not hand over what the
first did: the first hands `name = ? AND (age > ?)` with two arguments, the
second hands the bracket text and its argument once more; `SelectPage` issues
its count query with the first and its data query with the second. -/
theorem buildCondition_second_call_repeats_bracket :
    (buildCondition {} (some qBracket)).1.wheres
        = [("name = ? AND (age > ?)", [.str "a", .int 18])]
      ∧ (buildCondition {} (buildCondition {} (some qBracket)).2).1.wheres
        = [("name = ? AND (age > ?) AND (age > ?)", [.str "a", .int 18, .int 18])]
      ∧ ((BaseDao.SelectPage okDriver { db := {} } (NewPage 1 10) (some qBracket)
            { store := () }).world.trace.map (fun c => (c.op, c.stmt.wheres)))
        = [(.Count, [("name = ? AND (age > ?)", [.str "a", .int 18])]),
           (.Find, [("name = ? AND (age > ?) AND (age > ?)",
                      [.str "a", .int 18, .int 18])])] := by
  refine ⟨by decide, by decide, by decide⟩

/-- C2 (evaluation at the failing input): `Delete` and `Update` hand the driver
the main predicate only, `name = ?` with one argument, where `buildCondition`
hands `name = ? AND (age > ?)` with two: the AND-bracket group is left out. -/
theorem delete_update_leave_out_bracket :
    ((BaseDao.Delete okDriver { db := {} } qBracket { store := () }).2.trace.map
        (fun c => c.stmt.wheres)) = [[("name = ?", [.str "a"])]]
      ∧ ((BaseDao.Update okDriver { db := {} } qBracket { store := () }).2.trace.map
        (fun c => c.stmt.wheres)) = [[("name = ?", [.str "a"])]]
      ∧ (buildCondition {} (some qBracket)).1.wheres
        = [("name = ? AND (age > ?)", [.str "a", .int 18])] := by
  refine ⟨by decide, by decide, by decide⟩

/-- C3 (counterexample): the builder `qArgsOnly` has non-empty main text, an
AND-bracket argument and no AND-bracket text; `buildCondition` hands over the
arguments `[1]`, not main args ++ AND-bracket args ++ OR-bracket args `[1, 2]`. -/
theorem buildCondition_args_not_all_appended :
    qArgsOnly.QueryBuilder.length > 0
      ∧ (buildCondition {} (some qArgsOnly)).1.wheres = [("a = ?", [.int 1])]
      ∧ (buildCondition {} (some qArgsOnly)).1.wheres
        ≠ [(qArgsOnly.QueryBuilder ++ qArgsOnly.AndBracketBuilder ++ qArgsOnly.OrBracketBuilder,
            qArgsOnly.QueryArgs ++ qArgsOnly.AndBracketArgs ++ qArgsOnly.OrBracketArgs)] := by
  refine ⟨by decide, by decide, by decide⟩

/-- C3 (amended): for every builder with non-empty main text, one
`buildCondition` call hands over the text main ++ AND-bracket ++ OR-bracket and
the arguments main args ++ AND-bracket args ++ OR-bracket args, where the
arguments of a bracket group are taken only when that group has non-empty text;
AND-bracket content comes before OR-bracket content in both, and the builder is
left holding the same text and arguments. -/
theorem buildCondition_and_before_or (db : DB) (q : Query) (h : q.QueryBuilder.length > 0) :
    (buildCondition db (some q)).1.wheres
        = db.wheres ++
          [(q.QueryBuilder ++ q.AndBracketBuilder ++ q.OrBracketBuilder,
            q.QueryArgs
              ++ (if q.AndBracketBuilder.length > 0 then q.AndBracketArgs else [])
              ++ (if q.OrBracketBuilder.length > 0 then q.OrBracketArgs else []))]
      ∧ ((buildCondition db (some q)).2.map (fun q1 => (q1.QueryBuilder, q1.QueryArgs)))
        = some (q.QueryBuilder ++ q.AndBracketBuilder ++ q.OrBracketBuilder,
            q.QueryArgs
              ++ (if q.AndBracketBuilder.length > 0 then q.AndBracketArgs else [])
              ++ (if q.OrBracketBuilder.length > 0 then q.OrBracketArgs else [])) := by
  rw [buildCondition_wheres_of_pos db q h, buildCondition_builder_of_pos db q h]
  simp only [Option.map_some', merged_text, merged_args, and_self]

/-- Witness of C3 (amended) at `qBoth`. -/
theorem buildCondition_and_before_or_witness :
    qBoth.QueryBuilder.length > 0
      ∧ (buildCondition {} (some qBoth)).1.wheres
        = [("a = ? AND (b = ?) OR (c = ? AND d = ?)", [.int 1, .int 2, .int 3, .int 4])] :=
  ⟨by decide, by
    have h := (buildCondition_and_before_or {} qBoth (by decide)).1
    rw [h]
    decide⟩

/-- C4: for every builder with non-empty main text whose main predicate,
AND-bracket group and OR-bracket group each have as many `?` in their text as
values in their own argument list, the WHERE text handed over by
`buildCondition` has exactly as many `?` as the argument list handed over with
it has values. -/
theorem buildCondition_placeholders_eq_args (db : DB) (q : Query)
    (h : q.QueryBuilder.length > 0)
    (hm : placeholders q.QueryBuilder = q.QueryArgs.length)
    (ha : placeholders q.AndBracketBuilder = q.AndBracketArgs.length)
    (ho : placeholders q.OrBracketBuilder = q.OrBracketArgs.length) :
    ∃ text args, (buildCondition db (some q)).1.wheres = db.wheres ++ [(text, args)]
      ∧ placeholders text = args.length := by
  refine ⟨(merged q).QueryBuilder, (merged q).QueryArgs,
    buildCondition_wheres_of_pos db q h, ?_⟩
  rw [merged_text, merged_args, placeholders_append, placeholders_append]
  have ea : (if q.AndBracketBuilder.length > 0 then q.AndBracketArgs else []).length
      = placeholders q.AndBracketBuilder := by
    by_cases hl : q.AndBracketBuilder.length > 0
    · simp [hl, ha]
    · simp [hl, string_eq_empty_of_length _ hl, placeholders]
  have eo : (if q.OrBracketBuilder.length > 0 then q.OrBracketArgs else []).length
      = placeholders q.OrBracketBuilder := by
    by_cases hl : q.OrBracketBuilder.length > 0
    · simp [hl, ho]
    · simp [hl, string_eq_empty_of_length _ hl, placeholders]
  simp only [List.length_append, ea, eo, hm]

/-- Witness of C4 at `qBoth`. -/
theorem buildCondition_placeholders_eq_args_witness :
    ∃ text args, (buildCondition {} (some qBoth)).1.wheres = ([] : List _) ++ [(text, args)]
      ∧ placeholders text = args.length :=
  buildCondition_placeholders_eq_args {} qBoth (by decide) (by decide) (by decide) (by decide)

/-- C10: for every builder whose main predicate text is empty, `buildCondition`
adds no WHERE clause to the handle and leaves the builder, its predicate text
and argument list included, exactly as it was, whatever the AND-bracket and
OR-bracket groups hold. -/
theorem buildCondition_empty_main_no_where (db : DB) (q : Query)
    (h : q.QueryBuilder.length = 0) :
    (buildCondition db (some q)).1.wheres = db.wheres
      ∧ (buildCondition db (some q)).2 = some q := by
  simp only [buildCondition, mergeWhere_of_empty _ _ h, and_true]
  split_ifs <;> simp [DB.Model, DB.Distinct, DB.Select, DB.Order, DB.Group, DB.Having]

/-- Witness of C10 at `qBracketsOnly`. -/
theorem buildCondition_empty_main_no_where_witness :
    qBracketsOnly.QueryBuilder.length = 0
      ∧ qBracketsOnly.AndBracketBuilder.length > 0
      ∧ (buildCondition {} (some qBracketsOnly)).1.wheres = []
      ∧ (buildCondition {} (some qBracketsOnly)).2 = some qBracketsOnly :=
  ⟨by decide, by decide, buildCondition_empty_main_no_where {} qBracketsOnly (by decide)⟩

/-- C5 (counterexample): Current = 2^32 + 1 and Size = 2^31 are values of Go's
`int`, yet the offset `paginate` applies is -2^63: negative, and not the exact
product (Current - 1) * Size = 2^63. -/
theorem paginate_offset_wraps :
    isGoInt pageHuge.Current ∧ isGoInt pageHuge.Size
      ∧ (normCurrent pageHuge - 1) * normSize pageHuge = 9223372036854775808
      ∧ (paginate pageHuge {}).offset = some (-9223372036854775808)
      ∧ (paginate pageHuge {}).limit = some 2147483648 := by
  refine ⟨by unfold isGoInt; decide, by unfold isGoInt; decide, by decide, by decide, by decide⟩

/-- C5 (amended): for every page descriptor with Current and Size in Go's int
range, with p = Current if Current > 0 else 1 and s = Size if Size > 0 else 10,
`paginate` applies limit = s, and whenever the product (p - 1) * s is itself
below 2^63 it applies offset = (p - 1) * s as an exact integer, which is not
negative; in particular (0, 0) gives offset 0, limit 10 and (3, 10) gives
offset 20, limit 10. -/
theorem paginate_offset_limit {T : Type} (p : Page T) (db : DB)
    (hc : isGoInt p.Current) (hs : isGoInt p.Size) :
    (paginate p db).limit = some (normSize p)
      ∧ ((normCurrent p - 1) * normSize p < 2 ^ 63 →
          (paginate p db).offset = some ((normCurrent p - 1) * normSize p)
            ∧ 0 ≤ (normCurrent p - 1) * normSize p) := by
  have hp := normCurrent_pos p
  have hz := normSize_pos p
  obtain ⟨_, _⟩ := hs
  have hcur : normCurrent p < 2 ^ 63 := by
    unfold normCurrent
    unfold isGoInt at hc
    split_ifs <;> omega
  refine ⟨by rw [paginate_eq]; rfl, fun hfit => ?_⟩
  have hnn : 0 ≤ (normCurrent p - 1) * normSize p :=
    Int.mul_nonneg (by omega) (by omega)
  refine ⟨?_, hnn⟩
  rw [paginate_eq, wrapInt_of_fits (normCurrent p - 1) (by omega) (by omega),
    wrapInt_of_fits _ (by omega) hfit]
  rfl

/-- Witness of C5 (amended) at the pages (0, 0) and (3, 10). -/
theorem paginate_offset_limit_witness :
    ((paginate (NewPage 0 0 : Page Nat) {}).limit = some 10
        ∧ (paginate (NewPage 0 0 : Page Nat) {}).offset = some 0)
      ∧ ((paginate (NewPage 3 10 : Page Nat) {}).limit = some 10
        ∧ (paginate (NewPage 3 10 : Page Nat) {}).offset = some 20) := by
  have h0 := paginate_offset_limit (NewPage 0 0 : Page Nat) {}
    (by unfold isGoInt; decide) (by unfold isGoInt; decide)
  have h3 := paginate_offset_limit (NewPage 3 10 : Page Nat) {}
    (by unfold isGoInt; decide) (by unfold isGoInt; decide)
  exact ⟨⟨h0.1, (h0.2 (by decide)).1⟩, ⟨h3.1, (h3.2 (by decide)).1⟩⟩

/-- C6: for every page, builder, handle and driver, if the count query reports
an error then `SelectPage` and `SelectPageModel` return the page exactly as it
was on entry (Records and Total included, so Records is empty for a page made
by `NewPage`), together with the handle of the count phase, and the only call
issued is the count query: no data-phase query follows. -/
theorem selectPage_count_error_short_circuits {σ Row : Type} (drv : Driver σ Row) (db : DB)
    (page : Page Row) (q : Option Query) (w : World σ Row)
    (herr : (drv.exec w.store { op := .Count, stmt := (buildCondition db q).1 }).2.err ≠ none) :
    ((BaseDao.SelectPage drv { db := db } page q w).page = page
        ∧ (BaseDao.SelectPage drv { db := db } page q w).db
            = (BaseDao.SelectCount drv { db := db } q w).db
        ∧ (BaseDao.SelectPage drv { db := db } page q w).world.trace
            = w.trace ++ [{ op := .Count, stmt := (buildCondition db q).1 }])
      ∧ ((SelectPageModel drv db page q w).page = page
        ∧ (SelectPageModel drv db page q w).db
            = (run drv w .Count (buildCondition db q).1).2.1
        ∧ (SelectPageModel drv db page q w).world.trace
            = w.trace ++ [{ op := .Count, stmt := (buildCondition db q).1 }])
      ∧ (∀ current size, page = NewPage current size →
          (BaseDao.SelectPage drv { db := db } page q w).page.Records = []
            ∧ (SelectPageModel drv db page q w).page.Records = []) := by
  have e1 : (BaseDao.SelectCount drv { db := db } q w).db.Error ≠ none := herr
  have e2 : (run drv w .Count (buildCondition db q).1).2.1.Error ≠ none := herr
  have s1 : BaseDao.SelectPage drv { db := db } page q w
      = { page := page, db := (BaseDao.SelectCount drv { db := db } q w).db,
          q := (BaseDao.SelectCount drv { db := db } q w).q,
          world := (BaseDao.SelectCount drv { db := db } q w).world } := by
    unfold BaseDao.SelectPage
    exact if_pos e1
  have s2 : SelectPageModel drv db page q w
      = { page := page, db := (run drv w .Count (buildCondition db q).1).2.1,
          q := (buildCondition db q).2,
          world := (run drv w .Count (buildCondition db q).1).2.2 } := by
    unfold SelectPageModel
    exact if_pos e2
  rw [s1, s2]
  refine ⟨⟨rfl, rfl, rfl⟩, ⟨rfl, rfl, rfl⟩, ?_⟩
  intro current size hpage
  subst hpage
  exact ⟨rfl, rfl⟩

/-- Witness of C6 with a driver whose count query fails. -/
theorem selectPage_count_error_short_circuits_witness :
    (BaseDao.SelectPage failingCountDriver { db := {} } (NewPage 2 5) (some qBoth)
        { store := () }).page.Records = []
      ∧ (BaseDao.SelectPage failingCountDriver { db := {} } (NewPage 2 5) (some qBoth)
        { store := () }).world.trace.map (fun c => c.op) = [.Count] := by
  have h := selectPage_count_error_short_circuits failingCountDriver {} (NewPage 2 5)
    (some qBoth) { store := () } (by decide)
  refine ⟨(h.2.2 2 5 rfl).1, ?_⟩
  rw [h.1.2.2]
  decide

/-- C7 (counterexample): the first field of `fieldsEmptyColumn` carries a true
PRIMARYKEY marker and an explicit COLUMN key whose value is the empty string;
`getPkColumnName` returns the default name `id`, not that COLUMN value. -/
theorem getPkColumnName_empty_column_gives_default :
    fieldsEmptyColumn.find? (markedPrimary gormLib)
        = some { Name := "Uid", tagSetting := [("PRIMARYKEY", "PRIMARYKEY"), ("COLUMN", "")] }
      ∧ List.lookup "COLUMN" [("PRIMARYKEY", "PRIMARYKEY"), ("COLUMN", "")] = some ""
      ∧ getPkColumnName gormLib fieldsEmptyColumn = "id"
      ∧ getPkColumnName gormLib fieldsEmptyColumn ≠ "" := by
  refine ⟨by decide, by decide, by decide, by decide⟩

/-- C7 (amended): for every record type, `getPkColumnName` is total and returns
the column name of the first field, in declaration order, whose gorm tag carries
a true PRIMARYKEY or PRIMARY_KEY marker (the tag's explicit COLUMN value if the
key is present, otherwise the naming-convention transform of the field name)
when that name is not the empty string; it returns the configured default
primary-key name when that name is empty or when no field carries the marker,
a type with zero fields included. -/
theorem getPkColumnName_spec (lib : SchemaLib) (fields : List StructField) :
    getPkColumnName lib fields
        = (match fields.find? (markedPrimary lib) with
          | none => lib.DefaultPrimaryName
          | some f => if columnOf lib f = "" then lib.DefaultPrimaryName else columnOf lib f)
      ∧ getPkColumnName lib [] = lib.DefaultPrimaryName := by
  refine ⟨?_, rfl⟩
  unfold getPkColumnName
  simp only [pkLoop_eq_find]
  cases fields.find? (markedPrimary lib) with
  | none => simp
  | some f => rfl

/-- C8 (counterexample): after `Init(usedHandle)`, `InsertBatch` and
`InsertBatchSize` on an empty list return that handle, which reports three rows
affected, not zero. -/
theorem insertBatch_empty_returns_used_handle :
    (BaseDao.InsertBatch usedGlobals okDriver ((NewBaseDao usedGlobals).WithCtx "trace")
        [] { store := () }).1.RowsAffected = 3
      ∧ (BaseDao.InsertBatchSize usedGlobals okDriver ((NewBaseDao usedGlobals).WithCtx "trace")
        [] 2 { store := () }).1.RowsAffected = 3 := by
  refine ⟨by decide, by decide⟩

/-- C8 (amended): for every data-access object (one derived with `WithCtx`
included) and every batch size, `InsertBatch` and `InsertBatchSize` called with
an empty entity list issue no driver call and return the process-wide handle
`gormDb` as `Init` stored it, with whatever rows-affected and error fields that
handle has. -/
theorem insertBatch_empty_returns_gormDb {σ Row : Type} (g : Globals) (drv : Driver σ Row)
    (d : BaseDao) (c : String) (batchSize : Int) (w : World σ Row) :
    BaseDao.InsertBatch g drv d [] w = (g.gormDb, w)
      ∧ BaseDao.InsertBatchSize g drv d [] batchSize w = (g.gormDb, w)
      ∧ BaseDao.InsertBatch g drv (d.WithCtx c) [] w = (g.gormDb, w)
      ∧ BaseDao.InsertBatchSize g drv (d.WithCtx c) [] batchSize w = (g.gormDb, w) :=
  ⟨rfl, rfl, rfl, rfl⟩

/-- C9 (counterexample): `SelectPage` with a page made by `NewPage(0, 0)` and a
count query that succeeds returns the page with Current = 0 and Size = 0. -/
theorem selectPage_keeps_zero_page :
    (BaseDao.SelectCount okDriver { db := {} } none { store := () }).db.Error = none
      ∧ (BaseDao.SelectPage okDriver { db := {} } (NewPage 0 0) none { store := () }).page.Current = 0
      ∧ (BaseDao.SelectPage okDriver { db := {} } (NewPage 0 0) none { store := () }).page.Size = 0
      ∧ (BaseDao.SelectPage okDriver { db := {} } (NewPage 0 0) none { store := () }).page.Total = 3
      ∧ (BaseDao.SelectPage okDriver { db := {} } (NewPage 0 0) none { store := () }).page.Records
          = [7, 8, 9] := by
  refine ⟨by decide, by decide, by decide, by decide, by decide⟩

/-- C9 (amended): for every page passed to `SelectPage` whose count phase
succeeds, the page returned has the Current and Size it had on entry; the
coercions of a Current <= 0 to 1 and of a Size <= 0 to 10 are made only on the
values `paginate` computes with, so that the data query, the second and last
call issued, runs with a limit >= 1 taken from a page number >= 1. -/
theorem selectPage_page_fields_kept {σ Row : Type} (drv : Driver σ Row) (d : BaseDao)
    (page : Page Row) (q : Option Query) (w : World σ Row)
    (hok : (drv.exec w.store { op := .Count, stmt := (buildCondition d.db q).1 }).2.err = none) :
    (d.SelectPage drv page q w).page.Current = page.Current
      ∧ (d.SelectPage drv page q w).page.Size = page.Size
      ∧ (∃ stmt, (d.SelectPage drv page q w).world.trace
            = w.trace ++ [{ op := .Count, stmt := (buildCondition d.db q).1 },
                          { op := .Find, stmt := stmt }]
          ∧ stmt.limit = some (normSize page) ∧ 1 ≤ normSize page
          ∧ stmt.offset = some (wrapInt (wrapInt (normCurrent page - 1) * normSize page))
          ∧ 1 ≤ normCurrent page) := by
  have e1 : ¬ ((d.SelectCount drv q w).db.Error ≠ none) := fun h => h hok
  have s1 : d.SelectPage drv page q w
      = { page := { page with Total := (d.SelectCount drv q w).count,
                              Records := (run drv (d.SelectCount drv q w).world .Find
                                (paginate { page with Total := (d.SelectCount drv q w).count }
                                  (buildCondition d.db (d.SelectCount drv q w).q).1)).1.rows },
          db := (run drv (d.SelectCount drv q w).world .Find
                  (paginate { page with Total := (d.SelectCount drv q w).count }
                    (buildCondition d.db (d.SelectCount drv q w).q).1)).2.1,
          q := (buildCondition d.db (d.SelectCount drv q w).q).2,
          world := (run drv (d.SelectCount drv q w).world .Find
                  (paginate { page with Total := (d.SelectCount drv q w).count }
                    (buildCondition d.db (d.SelectCount drv q w).q).1)).2.2 } := by
    unfold BaseDao.SelectPage
    exact if_neg e1
  rw [s1]
  refine ⟨rfl, rfl, paginate { page with Total := (d.SelectCount drv q w).count }
    (buildCondition d.db (d.SelectCount drv q w).q).1, ?_, rfl, normSize_pos page, rfl,
    normCurrent_pos page⟩
  simp [run, BaseDao.SelectCount]

/-- Witness of C9 (amended) at the page (-4, 0). -/
theorem selectPage_page_fields_kept_witness :
    (BaseDao.SelectPage okDriver { db := {} } (NewPage (-4) 0) (some qBoth)
        { store := () }).page.Current = -4
      ∧ (BaseDao.SelectPage okDriver { db := {} } (NewPage (-4) 0) (some qBoth)
        { store := () }).page.Size = 0 := by
  have h := selectPage_page_fields_kept okDriver { db := {} } (NewPage (-4) 0) (some qBoth)
    { store := () } (by decide)
  exact ⟨h.1, h.2.1⟩

end Gplus
